import Mathlib

/-!
Verification of the kcp server core against its specification.

The definitions below are a shallow embedding of the Go sources:
`pkg/server/server.go` (the server wiring: handler chain construction,
listen-address parsing, root-directory handling, hook registration, shard
announcement) together with the e2e reconciler test file.  Components of
the repository that are referenced by the spec and by the tests but whose
implementation files are not part of the source set (the shard router's
`ServeHTTP`, the cluster-binding controller's reconciler and the resource
syncer) are modelled from the specification text; such definitions carry a
doc comment starting with `Modelled from the spec:`.
-/

namespace KcpServer

/-! ## Handler chain construction (`BuildHandlerChainFunc`, server.go 207-219)

In Go, handlers are opaque `http.Handler` values wrapped around each other.
We embed the wrapping structure as an inductive tree: `api` is the raw
`apiHandler` passed to `BuildHandlerChainFunc`, `shardProxy h` is
`sharding.ServeHTTP(h, clientLoader)`, `defaultChain h` is
`genericapiserver.DefaultBuildHandlerChain(h, c)`, and `lcluster h` is this
package's `ServeHTTP(h, c)` (the logical-cluster router). -/

inductive Handler : Type
  | api : Handler
  | shardProxy : Handler → Handler
  | defaultChain : Handler → Handler
  | lcluster : Handler → Handler
  deriving DecidableEq, Repr

/-- The layer labels, used to talk about the order in which the wrapped
handlers run on an inbound request. -/
inductive Layer : Type
  | api : Layer
  | shardProxy : Layer
  | defaultChain : Layer
  | lcluster : Layer
  deriving DecidableEq, Repr

/-- Embedding of `BuildHandlerChainFunc` from server.go lines 207-219:

    if s.cfg.EnableSharding {
      apiHandler = http.HandlerFunc(sharding.ServeHTTP(apiHandler, clientLoader))
    }
    apiHandler = http.HandlerFunc(ServeHTTP(genericapiserver.DefaultBuildHandlerChain(apiHandler, c), c))
    return apiHandler
-/
def buildHandlerChainFunc (enableSharding : Bool) (apiHandler : Handler) : Handler :=
  let h := if enableSharding then Handler.shardProxy apiHandler else apiHandler
  Handler.lcluster (Handler.defaultChain h)

/-- The order in which the layers of a wrapped handler run on an inbound
request: outermost wrapper first (each wrapper receives the request before
the handler it wraps). -/
def runOrder : Handler → List Layer
  | Handler.api => [Layer.api]
  | Handler.shardProxy h => Layer.shardProxy :: runOrder h
  | Handler.defaultChain h => Layer.defaultChain :: runOrder h
  | Handler.lcluster h => Layer.lcluster :: runOrder h

/-- Whether a shard-proxy wrapper occurs anywhere in a handler tree. -/
def hasShardProxy : Handler → Bool
  | Handler.api => false
  | Handler.shardProxy _ => true
  | Handler.defaultChain h => hasShardProxy h
  | Handler.lcluster h => hasShardProxy h

/-! ## Client config construction (server.go 239-268) and shard announcement
(server.go 202-206, 270-278) -/

/-- A `clientcmdapi.Cluster` entry as built in server.go: server URL,
certificate-authority data and TLS server name. -/
structure ClusterEntry where
  server : String
  certificateAuthorityData : String
  tlsServerName : String
  deriving DecidableEq, Repr

/-- The fields of `server.LoopbackClientConfig` that server.go reads. -/
structure LoopbackClientConfig where
  host : String
  caData : String
  serverName : String
  bearerToken : String
  deriving DecidableEq, Repr

/-- Embedding of `clientConfig.Clusters` from server.go lines 243-262: `cross-cluster`
points at `<host>/clusters/*`, `admin` points at the bare loopback host, and
`user` points at `<host>/clusters/<sanitized user cluster name>`.
`SanitizedClusterName` lives in the external `genericcontrolplane` package,
so it is taken as a parameter. -/
def clientConfigClusters (loopback : LoopbackClientConfig)
    (sanitizedUserClusterName : String) : List (String × ClusterEntry) :=
  [("cross-cluster",
    { server := loopback.host ++ "/clusters/*"
      certificateAuthorityData := loopback.caData
      tlsServerName := loopback.serverName }),
   ("admin",
    { server := loopback.host
      certificateAuthorityData := loopback.caData
      tlsServerName := loopback.serverName }),
   ("user",
    { server := loopback.host ++ "/clusters/" ++ sanitizedUserClusterName
      certificateAuthorityData := loopback.caData
      tlsServerName := loopback.serverName })]

/-- Look a cluster entry up by name in the constructed client config. -/
def lookupCluster (clusters : List (String × ClusterEntry)) (name : String) :
    Option ClusterEntry :=
  (clusters.find? (fun p => p.fst = name)).map Prod.snd

/-- Embedding of `sharding.IdentifiedConfig`: the (identifier, connection descriptor)
pair sent on the injection channel. -/
structure IdentifiedConfig where
  identifier : String
  config : ClusterEntry
  deriving DecidableEq, Repr

/-- The announcements `Server.Run` delivers on the `injector` channel
(server.go lines 270-278): exactly one `IdentifiedConfig` whose identifier
is `server.ExternalAddress` and whose config is the client config resolved
for the `admin` context, and only when `EnableSharding` is set; otherwise
none. -/
def runAnnouncements (enableSharding : Bool) (externalAddress : String)
    (loopback : LoopbackClientConfig) (sanitizedUserClusterName : String) :
    List IdentifiedConfig :=
  if enableSharding then
    match lookupCluster (clientConfigClusters loopback sanitizedUserClusterName) "admin" with
    | some adminConfig => [{ identifier := externalAddress, config := adminConfig }]
    | none => []
  else []

/-! ## Hook registration (server.go 405-434) -/

/-- Embedding of `postStartHookEntry` and `preShutdownHookEntry`: a named hook.  The hook
function body is opaque to the wiring logic, so it is represented by an
abstract tag. -/
structure HookEntry where
  name : String
  hook : Nat
  deriving DecidableEq, Repr

/-- The hook-related state of `Server` (server.go lines 79-83). -/
structure ServerHooks where
  postStartHooks : List HookEntry
  preShutdownHooks : List HookEntry
  deriving DecidableEq, Repr

/-- Embedding of `NewServer` (server.go lines 425-434): constructs the server and
immediately appends the `start-namespace-controller` post-start hook.  The
`startNamespaceController` method is represented by the abstract tag 0. -/
def newServer : ServerHooks :=
  { postStartHooks := [{ name := "start-namespace-controller", hook := 0 }]
    preShutdownHooks := [] }

/-- Embedding of `Server.AddPostStartHook` (server.go lines 405-413): appends the entry,
performing no validation of its own. -/
def addPostStartHook (s : ServerHooks) (name : String) (hook : Nat) : ServerHooks :=
  { s with postStartHooks := s.postStartHooks ++ [{ name := name, hook := hook }] }

/-- Embedding of `Server.AddPreShutdownHook` (server.go lines 415-423): appends the
entry, performing no validation of its own. -/
def addPreShutdownHook (s : ServerHooks) (name : String) (hook : Nat) : ServerHooks :=
  { s with preShutdownHooks := s.preShutdownHooks ++ [{ name := name, hook := hook }] }

/-! ## Listen-address parsing (server.go 186-200)

`net.SplitHostPort` and `strconv.Atoi` are Go standard-library collaborators;
they are embedded here following the Go standard library implementations so
that the error paths of `Server.Run` can be analysed precisely. -/

/-- Index of the last occurrence of a character in a list, if any
(`last` in Go's net package). -/
def lastIndexOfChar (s : List Char) (c : Char) : Option Nat :=
  match s.reverse.findIdx? (fun d => d == c) with
  | none => none
  | some i => some (s.length - 1 - i)

/-- Embedding of `net.SplitHostPort`: splits `host:port` (with optional brackets around
the host) at the last colon.  Error strings follow the Go implementation
(quotes inside messages elided). -/
def splitHostPort (hostport : String) : Except String (String × String) :=
  let s := hostport.toList
  match lastIndexOfChar s ':' with
  | none => Except.error "missing port in address"
  | some i =>
    if s.head? = some '[' then
      match s.findIdx? (fun d => d == ']') with
      | none => Except.error "missing right bracket in address"
      | some endIdx =>
        if endIdx + 1 = s.length then
          Except.error "missing port in address"
        else if endIdx + 1 ≠ i then
          if s.get? (endIdx + 1) = some ':' then
            Except.error "too many colons in address"
          else
            Except.error "missing port in address"
        else if (s.drop 1).contains '[' then
          Except.error "unexpected left bracket in address"
        else if (s.drop (endIdx + 1)).contains ']' then
          Except.error "unexpected right bracket in address"
        else
          Except.ok (((s.drop 1).take (endIdx - 1)).asString, (s.drop (i + 1)).asString)
    else
      if (s.take i).contains ':' then
        Except.error "too many colons in address"
      else if s.contains '[' then
        Except.error "unexpected left bracket in address"
      else if s.contains ']' then
        Except.error "unexpected right bracket in address"
      else
        Except.ok ((s.take i).asString, (s.drop (i + 1)).asString)

/-- Embedding of `strconv.Atoi` restricted to syntax: an optional sign followed by at
least one decimal digit; anything else is an error.  (Range overflow of
64-bit integers is not modelled; it does not arise for port strings the
claims are about.) -/
def atoi (s : String) : Except String Int :=
  let chars := s.toList
  let signAndDigits : Bool × List Char :=
    match chars with
    | '+' :: rest => (false, rest)
    | '-' :: rest => (true, rest)
    | _ => (false, chars)
  let digits := signAndDigits.snd
  if digits.isEmpty then Except.error "invalid syntax"
  else if digits.all (fun c => c.isDigit) then
    let n : Nat := digits.foldl (fun acc c => acc * 10 + (c.toNat - 48)) 0
    Except.ok (if signAndDigits.fst then -(n : Int) else (n : Int))
  else Except.error "invalid syntax"

/-- The listen-address stage of `Server.Run` (server.go lines 186-200):
split `--listen` into host and port, wrap a split failure with the
`--listen must be of format host:port` message, parse a nonempty port with
`strconv.Atoi`, and produce the bind address and bind port for the secure
serving options. -/
def runListenStage (listen : String) : Except String (Option String × Option Int) :=
  match splitHostPort listen with
  | Except.error e => Except.error ("--listen must be of format host:port: " ++ e)
  | Except.ok (host, port) =>
    let bindAddress := if host ≠ "" then some host else none
    if port ≠ "" then
      match atoi port with
      | Except.error e => Except.error e
      | Except.ok p => Except.ok (bindAddress, some p)
    else
      Except.ok (bindAddress, none)

/-! ## Root-directory stage (server.go 107-128) -/

/-- What a successful `os.Stat` reports about a path: a regular file or a
directory. -/
inductive FileKind : Type
  | file : FileKind
  | dir : FileKind
  deriving DecidableEq, Repr

/-- The result of `os.Stat` on a path: found with a kind, not-exist, or a
different stat failure. -/
inductive StatResult : Type
  | found : FileKind → StatResult
  | notExist : StatResult
  | failed : String → StatResult
  deriving DecidableEq, Repr

/-- The filesystem as `Server.Run` observes it: what `os.Stat` returns for
each path. -/
def FS : Type := String → StatResult

/-- Embedding of `os.MkdirAll` as it affects later stats: the created path becomes a
directory.  Only the path itself is consulted again, so parent directories
are not tracked. -/
def mkdirAll (fs : FS) (path : String) : FS :=
  fun p => if p = path then StatResult.found FileKind.dir else fs p

/-- Embedding of `filepath.IsAbs` on Unix: the path starts with a slash. -/
def isAbs (path : String) : Bool :=
  match path.data with
  | '/' :: _ => true
  | _ => false

/-- Embedding of `filepath.Join(".", p)` for an already-clean relative path `p`: the
empty path joins to `.`, any other stays itself (Go's `Clean` drops the
leading `./`). -/
def joinDot (p : String) : String := if p = "" then "." else p

/-- The directory `Server.Run` computes from `cfg.RootDirectory`
(server.go lines 107-112). -/
def computeDir (rootDirectory : String) : String :=
  if isAbs rootDirectory then rootDirectory else joinDot rootDirectory

/-- The root-directory stage of `Server.Run` (server.go lines 107-126):
stat the computed directory; a regular file is an error naming the path, a
missing path is created with `os.MkdirAll(dir, 0755)`, and any other stat
failure is returned as-is.  Returns the possibly-updated filesystem and the
log of mkdir calls with their mode. -/
def runDirStage (fs : FS) (rootDirectory : String) :
    Except String (FS × List (String × Nat)) :=
  let dir := computeDir rootDirectory
  -- Go: `if len(dir) != 0`, i.e. the directory string is nonempty
  if dir ≠ "" then
    match fs dir with
    | StatResult.found kind =>
      if kind = FileKind.dir then
        Except.ok (fs, [])
      else
        Except.error ("\"" ++ dir ++ "\" is a file, please delete or select another location")
    | StatResult.notExist => Except.ok (mkdirAll fs dir, [(dir, 0o755)])
    | StatResult.failed e => Except.error e
  else
    Except.ok (fs, [])

/-! ## The `Server.Run` pipeline

The stages of `Run` in source order: root-directory handling, etcd startup,
listen parsing, handler-chain installation, API-server creation and the
shard announcement.  The outcome records which stages were reached so that
"returns an error before X" claims can be stated. -/

structure RunOutcome where
  error : Option String
  mkdirCalls : List (String × Nat)
  etcdStarted : Bool
  apiServerStarted : Bool
  bindAddress : Option String
  bindPort : Option Int
  announcements : List IdentifiedConfig

/-- Embedding of `Server.Run` (server.go lines 101-403), restricted to the stages the
claims are about.  Etcd is started (or connected to) right after the
root-directory stage succeeds; the listen address is parsed next; the API
server starts only if all prior stages succeed, and the shard announcement
is delivered after the server chain is created. -/
def run (fs : FS) (rootDirectory listen : String) (enableSharding : Bool)
    (externalAddress : String) (loopback : LoopbackClientConfig)
    (sanitizedUserClusterName : String) : RunOutcome :=
  match runDirStage fs rootDirectory with
  | Except.error e =>
    { error := some e, mkdirCalls := [], etcdStarted := false,
      apiServerStarted := false, bindAddress := none, bindPort := none,
      announcements := [] }
  | Except.ok (_, mkdirs) =>
    match runListenStage listen with
    | Except.error e =>
      { error := some e, mkdirCalls := mkdirs, etcdStarted := true,
        apiServerStarted := false, bindAddress := none, bindPort := none,
        announcements := [] }
    | Except.ok (addr, port) =>
      { error := none, mkdirCalls := mkdirs, etcdStarted := true,
        apiServerStarted := true, bindAddress := addr, bindPort := port,
        announcements :=
          runAnnouncements enableSharding externalAddress loopback
            sanitizedUserClusterName }

/-! ## Shard router path parsing

The router's `ServeHTTP` implementation file is not part of the source
set — only its wiring (server.go line 216) and its callers are — so the
path parsing is modelled from the specification. -/

/-- Where a request is routed after the logical-cluster token is parsed. -/
inductive RouteTarget : Type
  | allClusters : RouteTarget
  | adminCluster : RouteTarget
  | namedCluster : String → RouteTarget
  deriving DecidableEq, Repr

/-- Modelled from the spec: the shard router's `ServeHTTP` (the
logical-cluster handler wired in server.go but whose implementation file is
missing from the source set) parses the path prefix to extract a
logical-cluster token.  Paths are namespaced as `/clusters/<token>/...`;
the wildcard token `*` (the `clusterAll` constant, server.go line 364)
denotes all logical clusters (cross-cluster view, reachable at
`<host>/clusters/*`, server.go line 246), a path without the cluster
prefix addresses the default/admin cluster (reachable at the bare host,
server.go line 252), and any other token names a single logical cluster. -/
def routeSegments : List String → RouteTarget
  | "" :: "clusters" :: tok :: _ =>
    if tok = "*" then RouteTarget.allClusters else RouteTarget.namedCluster tok
  | _ => RouteTarget.adminCluster

/-- Split a character list into slash-separated segments
(`strings.Split(path, "/")` on the character level). -/
def splitSegsAux : List Char → List Char → List String
  | [], acc => [acc.reverse.asString]
  | '/' :: rest, acc => acc.reverse.asString :: splitSegsAux rest []
  | c :: rest, acc => splitSegsAux rest (c :: acc)

/-- Split a request path into its slash-separated segments. -/
def splitPath (path : String) : List String := splitSegsAux path.data []

/-- Modelled from the spec: route a raw request path by splitting it into
slash-separated segments and extracting the logical-cluster token. -/
def routePath (path : String) : RouteTarget :=
  routeSegments (splitPath path)

/-! ## ClusterBindingController reconcile

The controller's reconciler implementation file is not part of the source
set — only its e2e test (`installCluster`, which waits for the `Ready`
condition with status `True`) is — so the transition logic is modelled from
the specification. -/

/-- The readiness state machine of a ClusterBinding. -/
inductive BindingPhase : Type
  | initializing : BindingPhase
  | ready : BindingPhase
  | error : BindingPhase
  | terminating : BindingPhase
  deriving DecidableEq, Repr

/-- A timestamped status condition on a ClusterBinding. -/
structure BindingCondition where
  type : String
  status : String
  reason : String
  message : String
  transitionTime : Nat
  deriving DecidableEq, Repr

/-- The controller-owned status of a ClusterBinding. -/
structure BindingStatus where
  phase : BindingPhase
  conditions : List BindingCondition
  deriving DecidableEq, Repr

/-- The `Ready`/`True` condition the controller publishes when a binding
becomes ready (matching what the e2e test `installCluster` waits for:
`condition.Type == ClusterConditionReady && condition.Status == ConditionTrue`). -/
def readyCondition (now : Nat) : BindingCondition :=
  { type := "Ready", status := "True", reason := "", message := "",
    transitionTime := now }

/-- Modelled from the spec: one reconcile pass of the
ClusterBindingController (implementation file missing from the source set)
for a binding that is not being deleted.  The embedded credential blob is
parsed; on failure the binding moves to `Error` with reason
`invalid configuration`.  On success a lightweight connectivity probe runs
against the sink; success moves the binding to `Ready`, failure to `Error`
with the probe error.  A condition with a fresh transition timestamp is
appended only if the previous state differed, avoiding condition churn on
reconcile no-ops. -/
def reconcileBinding (parseOk : Bool) (probeResult : Except String Unit)
    (now : Nat) (st : BindingStatus) : BindingStatus :=
  if parseOk then
    match probeResult with
    | Except.ok _ =>
      if st.phase = BindingPhase.ready then st
      else { phase := BindingPhase.ready,
             conditions := st.conditions ++ [readyCondition now] }
    | Except.error e =>
      if st.phase = BindingPhase.error then st
      else { phase := BindingPhase.error,
             conditions := st.conditions ++
               [{ type := "Ready", status := "False", reason := "ProbeFailed",
                  message := e, transitionTime := now }] }
  else
    if st.phase = BindingPhase.error then st
    else { phase := BindingPhase.error,
           conditions := st.conditions ++
             [{ type := "Ready", status := "False",
                reason := "invalid configuration", message := "",
                transitionTime := now }] }

/-! ## ResourceSyncer

The syncer's implementation files are not part of the source set — only the
e2e test driving the round-trip scenario is — so the copy loop is modelled
from the specification: spec flows source → sink, status flows sink →
source, and each direction stamps what it writes with the resource version
it produced and discards watch events carrying exactly that version (echo
suppression). -/

/-- A synchronized object: identity, spec, status and the resource version
stamped by the hosting cluster on each write. -/
structure SyncedObj where
  ns : String
  name : String
  spec : String
  status : String
  rv : Nat
  deriving DecidableEq, Repr

/-- Which side of the binding a watch event came from. -/
inductive Side : Type
  | source : Side
  | sink : Side
  deriving DecidableEq, Repr

/-- One cluster's view of the synced resource: the stored object (at most
one per (namespace, name) in this single-object model) and the next
resource version the cluster will stamp. -/
structure ClusterState where
  obj : Option SyncedObj
  nextRV : Nat
  deriving DecidableEq, Repr

/-- The world the syncer acts on: the source cluster, the sink cluster and
the pending watch events in delivery order. -/
structure SyncWorld where
  src : ClusterState
  snk : ClusterState
  events : List (Side × SyncedObj)
  deriving DecidableEq, Repr

/-- The syncer's echo-suppression markers: the resource version each
direction last produced by its own write. -/
structure SyncerState where
  lastWrittenToSink : Option Nat
  lastWrittenToSource : Option Nat
  deriving DecidableEq, Repr

/-- The cross-cluster writes a syncer can perform, logged for the echo-loop
analysis. -/
inductive SyncAction : Type
  | createSink : SyncedObj → SyncAction
  | patchSinkSpec : SyncedObj → SyncAction
  | patchSourceStatus : SyncedObj → SyncAction
  deriving DecidableEq, Repr

/-- Create-or-patch on a cluster: the object keeps its identity and spec
from the write, any existing status is preserved, and the cluster stamps a
fresh resource version. -/
def applyObj (c : ClusterState) (ns name specVal : String) :
    ClusterState × SyncedObj :=
  let keptStatus := match c.obj with
    | some o => o.status
    | none => ""
  let written : SyncedObj :=
    { ns := ns, name := name, spec := specVal, status := keptStatus,
      rv := c.nextRV }
  ({ obj := some written, nextRV := c.nextRV + 1 }, written)

/-- Status-subresource patch on a cluster: only the status changes; the
cluster stamps a fresh resource version.  Patching a missing object is a
no-op returning nothing. -/
def patchStatusSub (c : ClusterState) (statusVal : String) :
    ClusterState × Option SyncedObj :=
  match c.obj with
  | none => (c, none)
  | some o =>
    let written : SyncedObj := { o with status := statusVal, rv := c.nextRV }
    ({ obj := some written, nextRV := c.nextRV + 1 }, some written)

/-- Modelled from the spec: the ResourceSyncer's handling of one watch
event (its implementation files are missing from the source set).  A source
event drives the spec direction: events stamped with the resource version
the status direction itself last wrote are discarded as echoes; a genuine
event is applied to the sink by create-or-patch unless the sink already
holds an object with the same identity and spec (a true no-op), and the
syncer records the resource version it produced.  A sink event drives the
status direction symmetrically: echoes of the spec direction's own write
are discarded, otherwise only the status subresource of the source object
is patched and the produced resource version recorded.  Every syncer write
lands on the watched cluster and therefore enqueues a watch event. -/
def processEvent (w : SyncWorld) (st : SyncerState) (ev : Side × SyncedObj) :
    SyncWorld × SyncerState × List SyncAction :=
  match ev with
  | (Side.source, o) =>
    if st.lastWrittenToSource = some o.rv then (w, st, [])
    else
      match w.snk.obj with
      | some t =>
        if t.ns == o.ns && t.name == o.name && t.spec == o.spec then (w, st, [])
        else
          let res := applyObj w.snk o.ns o.name o.spec
          ({ w with snk := res.fst,
                    events := w.events ++ [(Side.sink, res.snd)] },
           { st with lastWrittenToSink := some res.snd.rv },
           [SyncAction.patchSinkSpec res.snd])
      | none =>
        let res := applyObj w.snk o.ns o.name o.spec
        ({ w with snk := res.fst,
                  events := w.events ++ [(Side.sink, res.snd)] },
         { st with lastWrittenToSink := some res.snd.rv },
         [SyncAction.createSink res.snd])
  | (Side.sink, o) =>
    if st.lastWrittenToSink = some o.rv then (w, st, [])
    else
      match patchStatusSub w.src o.status with
      | (_, none) => (w, st, [])
      | (src2, some written) =>
        ({ w with src := src2,
                  events := w.events ++ [(Side.source, written)] },
         { st with lastWrittenToSource := some written.rv },
         [SyncAction.patchSourceStatus written])

/-- Run the syncer until the event queue is empty or the fuel runs out,
accumulating the log of cross-cluster writes.  Events are consumed in
delivery order, as the spec requires. -/
def processAll : Nat → SyncWorld → SyncerState → List SyncAction →
    SyncWorld × SyncerState × List SyncAction
  | 0, w, st, log => (w, st, log)
  | fuel + 1, w, st, log =>
    match w.events with
    | [] => (w, st, log)
    | ev :: rest =>
      let step := processEvent { w with events := rest } st ev
      processAll fuel step.fst step.snd.fst (log ++ step.snd.snd)

/-- A user creating a fresh object on the source cluster: the cluster
stores it with a fresh resource version and emits a watch event. -/
def createSource (w : SyncWorld) (ns name specVal : String) : SyncWorld :=
  let o : SyncedObj :=
    { ns := ns, name := name, spec := specVal, status := "", rv := w.src.nextRV }
  { w with src := { obj := some o, nextRV := w.src.nextRV + 1 },
           events := w.events ++ [(Side.source, o)] }

/-- A user patching the status subresource of the sink object (what the e2e
test does with `sinkClient.Patch(..., "status")`): the sink stamps a fresh
resource version and emits a watch event. -/
def patchSinkStatusUser (w : SyncWorld) (statusVal : String) : SyncWorld :=
  match patchStatusSub w.snk statusVal with
  | (snk2, some written) =>
    { w with snk := snk2, events := w.events ++ [(Side.sink, written)] }
  | (_, none) => w

/-- An empty bound cluster pair: no objects on either side, no pending
events. -/
def initialWorld : SyncWorld :=
  { src := { obj := none, nextRV := 0 }, snk := { obj := none, nextRV := 0 },
    events := [] }

/-- A freshly started syncer: no writes recorded yet. -/
def initialSyncer : SyncerState :=
  { lastWrittenToSink := none, lastWrittenToSource := none }

/-- The round-trip scenario, phase A: a user creates a source object and the
syncer drains the event queue. -/
def roundTripAfterCreate (ns name specVal : String) :
    SyncWorld × SyncerState × List SyncAction :=
  processAll 8 (createSource initialWorld ns name specVal) initialSyncer []

/-- The round-trip scenario, phase B: after phase A, a user patches the sink
status subresource and the syncer drains the event queue again.  The action
log is restarted so phase B's writes can be inspected on their own. -/
def roundTripAfterStatusPatch (ns name specVal statusVal : String) :
    SyncWorld × SyncerState × List SyncAction :=
  processAll 8
    (patchSinkStatusUser (roundTripAfterCreate ns name specVal).fst statusVal)
    (roundTripAfterCreate ns name specVal).snd.fst []

end KcpServer

namespace KcpServer

/-! ## Helper lemmas -/

lemma computeDir_ne_empty (root : String) : computeDir root ≠ "" := by
  unfold computeDir
  cases h : isAbs root with
  | true =>
    simp only [h, if_true]
    intro hr
    rw [hr] at h
    exact absurd h (by decide)
  | false =>
    simp only [h, Bool.false_eq_true, if_false]
    unfold joinDot
    by_cases hr : root = ""
    · simp [hr]
    · simp [hr]

lemma runListenStage_split_error (listen e : String)
    (h : splitHostPort listen = Except.error e) :
    runListenStage listen
      = Except.error ("--listen must be of format host:port: " ++ e) := by
  unfold runListenStage
  rw [h]

lemma runListenStage_atoi_error (listen hst prt e : String)
    (hs : splitHostPort listen = Except.ok (hst, prt)) (hne : prt ≠ "")
    (ha : atoi prt = Except.error e) :
    runListenStage listen = Except.error e := by
  unfold runListenStage
  rw [hs]
  dsimp only
  rw [if_pos hne, ha]

lemma run_of_dir_error (fs : FS) (root listen : String) (sh : Bool)
    (ea : String) (lb : LoopbackClientConfig) (un : String) (e : String)
    (hd : runDirStage fs root = Except.error e) :
    run fs root listen sh ea lb un =
      { error := some e, mkdirCalls := [], etcdStarted := false,
        apiServerStarted := false, bindAddress := none, bindPort := none,
        announcements := [] } := by
  unfold run
  rw [hd]

lemma run_of_listen_error (fs : FS) (root listen : String) (sh : Bool)
    (ea : String) (lb : LoopbackClientConfig) (un : String)
    (fs2 : FS) (mk : List (String × Nat)) (e : String)
    (hd : runDirStage fs root = Except.ok (fs2, mk))
    (hl : runListenStage listen = Except.error e) :
    run fs root listen sh ea lb un =
      { error := some e, mkdirCalls := mk, etcdStarted := true,
        apiServerStarted := false, bindAddress := none, bindPort := none,
        announcements := [] } := by
  unfold run
  rw [hd]
  dsimp only
  rw [hl]

lemma foldl_addPostStartHook (adds : List (String × Nat)) (s : ServerHooks) :
    (adds.foldl (fun t p => addPostStartHook t p.fst p.snd) s).postStartHooks
      = s.postStartHooks ++ adds.map (fun p => { name := p.fst, hook := p.snd }) := by
  induction adds generalizing s with
  | nil => simp
  | cons p rest ih =>
    simp only [List.foldl_cons, List.map_cons]
    rw [ih]
    simp [addPostStartHook]

/-! ## Claim theorems -/

/-- C1: in a bound, Ready cluster pair, creating a source object with spec
`S` makes a sink object with the same namespace, name and spec `S` appear
once the syncer drains its queue; subsequently patching the sink object's
status subresource to `T` makes the source object's status equal `T`, and
the only cross-cluster write phase B performs is that single source-status
patch — in particular no spec-change write back to the sink (no echo
loop). -/
theorem roundTrip_spec_status_no_echo (ns name specVal statusVal : String) :
    (roundTripAfterCreate ns name specVal).fst.snk.obj
        = some { ns := ns, name := name, spec := specVal, status := "", rv := 0 }
    ∧ (roundTripAfterCreate ns name specVal).fst.events = []
    ∧ (roundTripAfterCreate ns name specVal).snd.snd
        = [SyncAction.createSink
            { ns := ns, name := name, spec := specVal, status := "", rv := 0 }]
    ∧ (roundTripAfterStatusPatch ns name specVal statusVal).fst.src.obj
        = some { ns := ns, name := name, spec := specVal, status := statusVal, rv := 1 }
    ∧ (roundTripAfterStatusPatch ns name specVal statusVal).fst.events = []
    ∧ (roundTripAfterStatusPatch ns name specVal statusVal).snd.snd
        = [SyncAction.patchSourceStatus
            { ns := ns, name := name, spec := specVal, status := statusVal, rv := 1 }]
    ∧ (∀ o : SyncedObj,
        SyncAction.patchSinkSpec o
            ∉ (roundTripAfterStatusPatch ns name specVal statusVal).snd.snd
        ∧ SyncAction.createSink o
            ∉ (roundTripAfterStatusPatch ns name specVal statusVal).snd.snd) := by
  have hlog : (roundTripAfterStatusPatch ns name specVal statusVal).snd.snd
      = [SyncAction.patchSourceStatus
          { ns := ns, name := name, spec := specVal, status := statusVal, rv := 1 }] := rfl
  refine ⟨rfl, rfl, rfl, rfl, rfl, hlog, fun o => ⟨?_, ?_⟩⟩
  · rw [hlog]; simp
  · rw [hlog]; simp

/-- C2 counterexample: the claim says no handler runs between the
logical-cluster router and the shard proxy, but in the chain built with
sharding enabled the handler that runs immediately after the router is the
wrapped default handler chain, not the shard proxy. -/
theorem handler_chain_claim_false :
    runOrder (buildHandlerChainFunc true Handler.api)
      = [Layer.lcluster, Layer.defaultChain, Layer.shardProxy, Layer.api]
    ∧ (runOrder (buildHandlerChainFunc true Handler.api)).get? 1
        = some Layer.defaultChain
    ∧ Layer.defaultChain ≠ Layer.shardProxy := by
  decide

/-- C2 (amended): with sharding enabled, the handlers run in the order:
logical-cluster router first (nothing runs before it, it is a pass-through
filter), then the wrapped default handler chain, then the shard proxy, then
the original API handler. -/
theorem handler_chain_order_sharding (h : Handler) :
    runOrder (buildHandlerChainFunc true h)
      = Layer.lcluster :: Layer.defaultChain :: Layer.shardProxy :: runOrder h := rfl

/-- C3: with sharding disabled the built chain is exactly the
logical-cluster router wrapped around the default handler chain around the
original handler — no shard-proxy handler is installed (the chain contains
a shard proxy only if the original handler already did), and every request
passes router → default chain → original handler. -/
theorem handler_chain_no_sharding (h : Handler) :
    buildHandlerChainFunc false h = Handler.lcluster (Handler.defaultChain h)
    ∧ hasShardProxy (buildHandlerChainFunc false h) = hasShardProxy h
    ∧ runOrder (buildHandlerChainFunc false h)
        = Layer.lcluster :: Layer.defaultChain :: runOrder h
    ∧ hasShardProxy (buildHandlerChainFunc false Handler.api) = false :=
  ⟨rfl, rfl, rfl, rfl⟩

/-- C4: a request whose path carries the reserved wildcard token `*` is
routed to the cross-cluster aggregation view, never as if `*` named a
single logical cluster; illustrated on a concrete full request path. -/
theorem wildcard_not_named_cluster (rest : List String) :
    routeSegments ("" :: "clusters" :: "*" :: rest) = RouteTarget.allClusters
    ∧ (∀ n : String,
        routeSegments ("" :: "clusters" :: "*" :: rest) ≠ RouteTarget.namedCluster n)
    ∧ routePath "/clusters/*/apis/wildwest.dev/v1alpha1/cowboys"
        = RouteTarget.allClusters := by
  have h : routeSegments ("" :: "clusters" :: "*" :: rest)
      = RouteTarget.allClusters := rfl
  exact ⟨h, fun n hn => RouteTarget.noConfusion (h ▸ hn), rfl⟩

/-- C5: when sharding is enabled and Run reaches the announcement point
(no earlier stage failed), exactly one (identifier, connection descriptor)
pair is delivered on the injection channel, whose identifier is the
server's external address and whose descriptor is the admin loopback client
configuration; with sharding disabled, Run delivers zero announcements. -/
theorem run_shard_announcements (fs : FS) (root listen extAddr : String)
    (lb : LoopbackClientConfig) (un : String)
    (hok : (run fs root listen true extAddr lb un).error = none) :
    (run fs root listen true extAddr lb un).announcements
      = [{ identifier := extAddr,
           config := { server := lb.host, certificateAuthorityData := lb.caData,
                       tlsServerName := lb.serverName } }]
    ∧ (∀ (fs2 : FS) (root2 listen2 ea2 : String) (lb2 : LoopbackClientConfig)
          (un2 : String),
        (run fs2 root2 listen2 false ea2 lb2 un2).announcements = []) := by
  constructor
  · rcases hd : runDirStage fs root with e | ⟨fs2, mk⟩
    · exfalso
      unfold run at hok
      rw [hd] at hok
      exact Option.noConfusion hok
    · rcases hl : runListenStage listen with e | ⟨addr, prt⟩
      · exfalso
        unfold run at hok
        rw [hd] at hok
        dsimp only at hok
        rw [hl] at hok
        exact Option.noConfusion hok
      · unfold run
        rw [hd]
        dsimp only
        rw [hl]
        rfl
  · intro fs2 root2 listen2 ea2 lb2 un2
    unfold run
    rcases hd : runDirStage fs2 root2 with e | ⟨fs3, mk3⟩
    · rfl
    · dsimp only
      rcases hl : runListenStage listen2 with e | ⟨addr, prt⟩
      · rfl
      · rfl

/-- C5 witness: a concrete successful run with sharding enabled delivers
exactly the admin-loopback announcement. -/
theorem run_shard_announcements_witness :
    (run (fun _ => StatResult.notExist) "d" ":6443" true "addr"
        { host := "h", caData := "ca", serverName := "sn", bearerToken := "tok" }
        "u").announcements
      = [{ identifier := "addr",
           config := { server := "h", certificateAuthorityData := "ca",
                       tlsServerName := "sn" } }] :=
  (run_shard_announcements (fun _ => StatResult.notExist) "d" ":6443" "addr"
    { host := "h", caData := "ca", serverName := "sn", bearerToken := "tok" }
    "u" rfl).1

/-- C6: for a binding whose credential blob parses and whose sink answers
the connectivity probe, one reconcile pass moves the binding to Ready; the
published condition has type Ready, status True and the probe time as its
transition timestamp, and it is appended exactly when the previous state
was not already Ready (no condition churn on a reconcile no-op). -/
theorem reconcile_ready_condition (now : Nat) (st : BindingStatus) :
    (readyCondition now).type = "Ready"
    ∧ (readyCondition now).status = "True"
    ∧ (readyCondition now).transitionTime = now
    ∧ (reconcileBinding true (Except.ok ()) now st).phase = BindingPhase.ready
    ∧ reconcileBinding true (Except.ok ()) now st
        = (if st.phase = BindingPhase.ready then st
           else { phase := BindingPhase.ready,
                  conditions := st.conditions ++ [readyCondition now] }) := by
  refine ⟨rfl, rfl, rfl, ?_, rfl⟩
  by_cases h : st.phase = BindingPhase.ready
  · simp [reconcileBinding, h]
  · simp [reconcileBinding, h]

/-- C7: the client config built by Run pins the two reserved tokens — the
cross-cluster view at `<host>/clusters/*` (wildcard token `*`), the
admin cluster at the bare host with no cluster path segment — and a user
cluster at `<host>/clusters/<name>`; in the router any non-wildcard token
under `/clusters/` names that single logical cluster and a path without the
cluster prefix addresses the admin cluster. -/
theorem reserved_path_tokens (lb : LoopbackClientConfig) (userName : String) :
    lookupCluster (clientConfigClusters lb userName) "cross-cluster"
      = some { server := lb.host ++ "/clusters/*",
               certificateAuthorityData := lb.caData, tlsServerName := lb.serverName }
    ∧ lookupCluster (clientConfigClusters lb userName) "admin"
      = some { server := lb.host,
               certificateAuthorityData := lb.caData, tlsServerName := lb.serverName }
    ∧ lookupCluster (clientConfigClusters lb userName) "user"
      = some { server := lb.host ++ "/clusters/" ++ userName,
               certificateAuthorityData := lb.caData, tlsServerName := lb.serverName }
    ∧ (∀ (tok : String) (rest : List String),
        routeSegments ("" :: "clusters" :: tok :: rest)
          = if tok = "*" then RouteTarget.allClusters
            else RouteTarget.namedCluster tok)
    ∧ routePath "/" = RouteTarget.adminCluster
    ∧ (∀ rest : List String,
        routeSegments ("" :: "api" :: rest) = RouteTarget.adminCluster) := by
  exact ⟨rfl, rfl, rfl, fun tok rest => rfl, rfl, fun rest => rfl⟩

/-- C8: when Run gets past the root-directory stage, a Listen string that
`net.SplitHostPort` cannot split makes Run fail with an error wrapping
`--listen must be of format host:port` and the API server never starts; a
splittable Listen whose nonempty port is not an integer makes Run fail with
the Atoi error, again without starting the API server. -/
theorem run_invalid_listen (fs : FS) (root listen : String) (sh : Bool)
    (ea : String) (lb : LoopbackClientConfig) (un : String)
    (fs2 : FS) (mk : List (String × Nat))
    (hdir : runDirStage fs root = Except.ok (fs2, mk)) :
    (∀ e : String, splitHostPort listen = Except.error e →
      (run fs root listen sh ea lb un).error
          = some ("--listen must be of format host:port: " ++ e)
        ∧ (run fs root listen sh ea lb un).apiServerStarted = false)
    ∧ (∀ hst prt e : String, splitHostPort listen = Except.ok (hst, prt) →
        prt ≠ "" → atoi prt = Except.error e →
        (run fs root listen sh ea lb un).error = some e
        ∧ (run fs root listen sh ea lb un).apiServerStarted = false) := by
  constructor
  · intro e he
    have hl := runListenStage_split_error listen e he
    rw [run_of_listen_error fs root listen sh ea lb un fs2 mk _ hdir hl]
    exact ⟨rfl, rfl⟩
  · intro hst prt e hs hne ha
    have hl := runListenStage_atoi_error listen hst prt e hs hne ha
    rw [run_of_listen_error fs root listen sh ea lb un fs2 mk _ hdir hl]
    exact ⟨rfl, rfl⟩

/-- C8 witness: concrete invalid listen strings — one with no colon, one
with a non-integer port — make Run fail without starting the API server. -/
theorem run_invalid_listen_witness :
    ((run (fun _ => StatResult.notExist) "d" "nocolon" false ""
        { host := "", caData := "", serverName := "", bearerToken := "" } "").error
      = some "--listen must be of format host:port: missing port in address"
    ∧ (run (fun _ => StatResult.notExist) "d" "nocolon" false ""
        { host := "", caData := "", serverName := "", bearerToken := "" }
        "").apiServerStarted = false)
    ∧ ((run (fun _ => StatResult.notExist) "d" "host:abc" false ""
        { host := "", caData := "", serverName := "", bearerToken := "" } "").error
      = some "invalid syntax"
    ∧ (run (fun _ => StatResult.notExist) "d" "host:abc" false ""
        { host := "", caData := "", serverName := "", bearerToken := "" }
        "").apiServerStarted = false) :=
  ⟨(run_invalid_listen (fun _ => StatResult.notExist) "d" "nocolon" false ""
      { host := "", caData := "", serverName := "", bearerToken := "" } ""
      (mkdirAll (fun _ => StatResult.notExist) "d") [("d", 0o755)] rfl).1
      "missing port in address" rfl,
   (run_invalid_listen (fun _ => StatResult.notExist) "d" "host:abc" false ""
      { host := "", caData := "", serverName := "", bearerToken := "" } ""
      (mkdirAll (fun _ => StatResult.notExist) "d") [("d", 0o755)] rfl).2
      "host" "abc" "invalid syntax" rfl (by decide) rfl⟩

/-- C9: a Server built by NewServer has the start-namespace-controller
post-start hook as its only initial hook, so it precedes any hooks the
caller later adds; AddPostStartHook and AddPreShutdownHook append entries,
preserving insertion order and touching nothing else, and never reject an
entry (any sequence of adds yields the namespace-controller hook first
followed by the added entries in order). -/
theorem hooks_order :
    newServer.postStartHooks = [{ name := "start-namespace-controller", hook := 0 }]
    ∧ newServer.preShutdownHooks = []
    ∧ (∀ (s : ServerHooks) (n : String) (h : Nat),
        (addPostStartHook s n h).postStartHooks
            = s.postStartHooks ++ [{ name := n, hook := h }]
        ∧ (addPostStartHook s n h).preShutdownHooks = s.preShutdownHooks)
    ∧ (∀ (s : ServerHooks) (n : String) (h : Nat),
        (addPreShutdownHook s n h).preShutdownHooks
            = s.preShutdownHooks ++ [{ name := n, hook := h }]
        ∧ (addPreShutdownHook s n h).postStartHooks = s.postStartHooks)
    ∧ (∀ adds : List (String × Nat),
        (adds.foldl (fun t p => addPostStartHook t p.fst p.snd) newServer).postStartHooks
          = { name := "start-namespace-controller", hook := 0 }
              :: adds.map (fun p => { name := p.fst, hook := p.snd })) := by
  refine ⟨rfl, rfl, fun s n h => ⟨rfl, rfl⟩, fun s n h => ⟨rfl, rfl⟩, fun adds => ?_⟩
  rw [foldl_addPostStartHook]
  rfl

/-- C10: if the computed root directory exists and is a regular file, Run
fails with an error naming the path as a file, before any etcd state is
created (etcd is not started and nothing is made); if the path does not
exist, Run creates the directory with mode 0755 and proceeds to the etcd
stage. -/
theorem run_root_directory (fs : FS) (root listen : String) (sh : Bool)
    (ea : String) (lb : LoopbackClientConfig) (un : String) :
    (fs (computeDir root) = StatResult.found FileKind.file →
      (run fs root listen sh ea lb un).error
          = some ("\"" ++ computeDir root
              ++ "\" is a file, please delete or select another location")
        ∧ (run fs root listen sh ea lb un).etcdStarted = false
        ∧ (run fs root listen sh ea lb un).mkdirCalls = [])
    ∧ (fs (computeDir root) = StatResult.notExist →
        runDirStage fs root
            = Except.ok (mkdirAll fs (computeDir root), [(computeDir root, 0o755)])
        ∧ (run fs root listen sh ea lb un).mkdirCalls
            = [(computeDir root, 0o755)]
        ∧ (run fs root listen sh ea lb un).etcdStarted = true) := by
  constructor
  · intro hfile
    have hd : runDirStage fs root
        = Except.error ("\"" ++ computeDir root
            ++ "\" is a file, please delete or select another location") := by
      unfold runDirStage
      rw [if_pos (computeDir_ne_empty root), hfile]
      rfl
    rw [run_of_dir_error fs root listen sh ea lb un _ hd]
    exact ⟨rfl, rfl, rfl⟩
  · intro hmiss
    have hd : runDirStage fs root
        = Except.ok (mkdirAll fs (computeDir root), [(computeDir root, 0o755)]) := by
      unfold runDirStage
      rw [if_pos (computeDir_ne_empty root), hmiss]
    refine ⟨hd, ?_, ?_⟩ <;>
      · unfold run
        rw [hd]
        dsimp only
        rcases hl : runListenStage listen with e | ⟨addr, prt⟩ <;> rfl

/-- C10 witness: a concrete filesystem where the root directory path is a
regular file makes Run fail naming the path, and one where it is missing
makes Run create it with mode 0755 and proceed. -/
theorem run_root_directory_witness :
    ((run (fun p => if p = "d" then StatResult.found FileKind.file
          else StatResult.notExist) "d" ":1" false ""
        { host := "", caData := "", serverName := "", bearerToken := "" } "").error
      = some "\"d\" is a file, please delete or select another location"
    ∧ (run (fun p => if p = "d" then StatResult.found FileKind.file
          else StatResult.notExist) "d" ":1" false ""
        { host := "", caData := "", serverName := "", bearerToken := "" }
        "").etcdStarted = false)
    ∧ ((run (fun _ => StatResult.notExist) "d" ":1" false ""
        { host := "", caData := "", serverName := "", bearerToken := "" }
        "").mkdirCalls = [("d", 0o755)]
    ∧ (run (fun _ => StatResult.notExist) "d" ":1" false ""
        { host := "", caData := "", serverName := "", bearerToken := "" }
        "").etcdStarted = true) :=
  ⟨⟨((run_root_directory (fun p => if p = "d" then StatResult.found FileKind.file
        else StatResult.notExist) "d" ":1" false ""
        { host := "", caData := "", serverName := "", bearerToken := "" } "").1
        rfl).1,
    ((run_root_directory (fun p => if p = "d" then StatResult.found FileKind.file
        else StatResult.notExist) "d" ":1" false ""
        { host := "", caData := "", serverName := "", bearerToken := "" } "").1
        rfl).2.1⟩,
   ⟨((run_root_directory (fun _ => StatResult.notExist) "d" ":1" false ""
        { host := "", caData := "", serverName := "", bearerToken := "" } "").2
        rfl).2.1,
    ((run_root_directory (fun _ => StatResult.notExist) "d" ":1" false ""
        { host := "", caData := "", serverName := "", bearerToken := "" } "").2
        rfl).2.2⟩⟩

end KcpServer
